import Mathlib

/-!
Shallow embedding of the ProcSight (pidaemonmanager) core: the monitoring
engine in core/monitor.py and the service-management layer in core/core.py,
services/systemd_backend.py, services/launchd_backend.py and
services/windows_backend.py.

Modelling conventions:
- Subprocess invocations are inputs of type CmdOutcome: either a completed
  run (exit code, stdout, stderr), a subprocess.TimeoutExpired, a
  FileNotFoundError, or another uncaught exception carrying its message.
- Every call to print_success / print_error / print_warning / print_info
  (console reporting, utils.py) and to the file logger obtained from
  setup_logging (logger.info / logger.error) is modelled as one LogRec
  appended to an output trace, with a distinct constructor per channel.
- Python strings are modelled as Lean String values; the str methods the
  source uses (strip, split, startswith, lower, int conversion, join) are
  implemented structurally below over the underlying character list, so
  closed evaluations reduce in the kernel.
- Functions whose every exception is caught at the operation boundary in
  the source (the outer try blocks) are total Lean functions; is_available
  of a backend, whose body can raise past the boundary, returns
  Except PyErr Bool instead.
-/

namespace ProcSight

/-! ## Python string primitives -/

/-- Split a character list at every separator characterised by p, keeping
empty segments, as Python str.split with an explicit separator does. -/
def splitWhen (p : Char → Bool) : List Char → List (List Char)
  | [] => [[]]
  | c :: cs =>
    let r := splitWhen p cs
    if p c then [] :: r
    else
      match r with
      | h :: t => (c :: h) :: t
      | [] => [[c]]

/-- Python str whitespace (the ASCII part, which is all that occurs in the
outputs modelled here). -/
def isWs (c : Char) : Bool :=
  c = ' ' || c = '\t' || c = '\n' || c = '\r' || c = '\x0b' || c = '\x0c'

/-- Trim whitespace at both ends of a character list. -/
def trimChars (l : List Char) : List Char :=
  ((l.dropWhile isWs).reverse.dropWhile isWs).reverse

/-- Python str.strip(). -/
def pyStrip (s : String) : String := ⟨trimChars s.data⟩

/-- Python str.split(sep) for a one-character separator: keeps empty parts. -/
def pySplit (sep : Char) (s : String) : List String :=
  (splitWhen (fun c => c == sep) s.data).map (fun l => ⟨l⟩)

/-- Python str.split(chr(10)), as applied to stdout in the list parsers. -/
def pyLines (s : String) : List String := pySplit '\n' s

/-- Python str.split() with no argument: split on whitespace runs and drop
empty parts. -/
def pyWords (s : String) : List String :=
  ((splitWhen isWs s.data).filter (fun l => l ≠ [])).map (fun l => ⟨l⟩)

/-- List-level check that the first argument starts the second. -/
def isPre : List Char → List Char → Bool
  | [], _ => true
  | _ :: _, [] => false
  | a :: as, b :: bs => a == b && isPre as bs

/-- Python str.startswith(pre). -/
def beginsWith (pre s : String) : Bool := isPre pre.data s.data

/-- Everything after the first colon: Python line.split(colon, 1)[1] for the
tagged lines of the sc.exe query output, whose first colon ends the tag. -/
def afterFirstColon : List Char → List Char
  | [] => []
  | c :: cs => if c = ':' then cs else afterFirstColon cs

/-- Python line.split(colon, 1)[1] packaged on String. -/
def pyAfterColon (s : String) : String := ⟨afterFirstColon s.data⟩

/-- Python str.lower() (ASCII, which covers the platform.system() values). -/
def pyLower (s : String) : String := ⟨s.data.map Char.toLower⟩

/-- Value of an ASCII digit, none for any other character. -/
def digit? (c : Char) : Option Nat :=
  if '0' ≤ c ∧ c ≤ '9' then some (c.toNat - 48) else none

/-- Accumulate a decimal value over a digit run; none on a non-digit. -/
def digitsVal (acc : Nat) : List Char → Option Nat
  | [] => some acc
  | c :: cs =>
    match digit? c with
    | some d => digitsVal (acc * 10 + d) cs
    | none => none

/-- Python int(s) for the already-stripped numeric fields of launchctl list
output: an optional sign followed by at least one digit; none models the
ValueError branch. -/
def pyToInt (s : String) : Option Int :=
  match s.data with
  | [] => none
  | '-' :: rest =>
    match rest with
    | [] => none
    | _ => (digitsVal 0 rest).map (fun n => -(n : Int))
  | '+' :: rest =>
    match rest with
    | [] => none
    | _ => (digitsVal 0 rest).map (fun n => (n : Int))
  | l => (digitsVal 0 l).map (fun n => (n : Int))

/-- Python sep.join(parts) at the character-list level. -/
def pyJoinAux (sep : List Char) : List (List Char) → List Char
  | [] => []
  | [w] => w
  | w :: ws => w ++ sep ++ pyJoinAux sep ws

/-- Python sep.join(parts). -/
def pyJoin (sep : String) (l : List String) : String :=
  ⟨pyJoinAux sep.data (l.map String.data)⟩

/-! ## Subprocess, exception and log model -/

/-- Outcome of one subprocess.run call: a completed process with its exit
code and captured output, a subprocess.TimeoutExpired, a FileNotFoundError
(the missing-binary case), or another exception with its message. -/
inductive CmdOutcome where
  | ok (returncode : Int) (stdout stderr : String)
  | timeout
  | fileNotFound (msg : String)
  | exc (msg : String)
deriving DecidableEq

/-- A Python exception escaping a function boundary. -/
inductive PyErr where
  | attributeError
  | uncaught (msg : String)
deriving DecidableEq

/-- One record emitted to the reporting channels: psuccess / perr / pwarn /
pinfo are the colored console helpers print_success, print_error,
print_warning, print_info of utils.py; linfo and lerror are logger.info and
logger.error on the file logger returned by setup_logging. -/
inductive LogRec where
  | psuccess (msg : String)
  | perr (msg : String)
  | pwarn (msg : String)
  | pinfo (msg : String)
  | linfo (msg : String)
  | lerror (msg : String)
deriving DecidableEq

/-- Python str(bool) as it appears inside the logged f-strings. -/
def pyBool (b : Bool) : String := if b then "True" else "False"

/-! ## monitor.py: per-tick delta computation

watch_process (lines 59-66) and monitor_system (lines 141-148) both compute
per-tick deltas by plain subtraction of the previous cumulative counter from
the current one, guarded only by a truthiness test on the previous value
(modelled as Option): there is no clamping of negative results. -/

/-- Per-process io_counters() reading (read_bytes, write_bytes). -/
structure IoCounters where
  read_bytes : Int
  write_bytes : Int
deriving DecidableEq

/-- System-wide net_io_counters() reading (bytes_sent, bytes_recv). -/
structure NetCounters where
  bytes_sent : Int
  bytes_recv : Int
deriving DecidableEq

/-- System-wide disk_io_counters() reading (read_bytes, write_bytes). -/
structure DiskCounters where
  read_bytes : Int
  write_bytes : Int
deriving DecidableEq

/-- monitor.py line 60: io_read = io_counters.read_bytes - prev_io.read_bytes
if prev_io else 0. -/
def io_read_delta (prev_io : Option IoCounters) (io_counters : IoCounters) : Int :=
  match prev_io with
  | some p => io_counters.read_bytes - p.read_bytes
  | none => 0

/-- monitor.py line 61: io_write delta, same rule. -/
def io_write_delta (prev_io : Option IoCounters) (io_counters : IoCounters) : Int :=
  match prev_io with
  | some p => io_counters.write_bytes - p.write_bytes
  | none => 0

/-- monitor.py lines 65 and 142: net_sent delta (system-wide counters). -/
def net_sent_delta (prev_net : Option NetCounters) (net : NetCounters) : Int :=
  match prev_net with
  | some p => net.bytes_sent - p.bytes_sent
  | none => 0

/-- monitor.py lines 66 and 143: net_recv delta. -/
def net_recv_delta (prev_net : Option NetCounters) (net : NetCounters) : Int :=
  match prev_net with
  | some p => net.bytes_recv - p.bytes_recv
  | none => 0

/-- monitor.py line 147: disk_read delta in monitor_system. -/
def disk_read_delta (prev_disk : Option DiskCounters) (disk_io : DiskCounters) : Int :=
  match prev_disk with
  | some p => disk_io.read_bytes - p.read_bytes
  | none => 0

/-- monitor.py line 148: disk_write delta in monitor_system. -/
def disk_write_delta (prev_disk : Option DiskCounters) (disk_io : DiskCounters) : Int :=
  match prev_disk with
  | some p => disk_io.write_bytes - p.write_bytes
  | none => 0

/-! ## monitor.py: watch_multiple_processes sampling loop

The loop (lines 212-237) keeps one fixed list of resolved targets. Every
iteration walks the whole list: a target whose probe yields a running
process is sampled and collected into active_processes for that tick; a
target whose is_running() is false, or whose attribute reads raise
NoSuchProcess or AccessDenied, only gets a warning for that tick. The list
itself is never filtered, so every later iteration probes the dead target
again. The loop breaks when a tick collects no active process, and
otherwise runs until the duration budget (modelled as a tick budget) is
spent. The observable result of probing target p at tick t is supplied by
a schedule. -/

/-- What one probe of a target during one tick observes. running means the
whole per-target read succeeded; notRunning is is_running() returning
false; the two exception constructors are the caught psutil conditions. -/
inductive PStatus where
  | running (cpu mem : Int) (threads : Nat)
  | notRunning
  | noSuchProcess
  | accessDenied
deriving DecidableEq

/-- A probe counts into active_processes only when the target was sampled. -/
def PStatus.isActive : PStatus → Bool
  | .running _ _ _ => true
  | _ => false

/-- One iteration body: every target in the (never-shrinking) list is
probed; the sampled ones form the active set of the tick. The pair is
(targets probed this tick, targets sampled this tick). -/
def multi_tick (sched : Nat → Nat → PStatus) (t : Nat) (procs : List Nat) :
    List Nat × List Nat :=
  (procs, procs.filter (fun p => (sched t p).isActive))

/-- The while loop of watch_multiple_processes: run tick t, stop when the
active set of the tick is empty, otherwise continue until the budget is
spent. Returns the per-tick (probed, sampled) trace. -/
def watch_multiple_loop (sched : Nat → Nat → PStatus) (procs : List Nat) :
    Nat → Nat → List (List Nat × List Nat)
  | 0, _ => []
  | fuel + 1, t =>
    let tick := multi_tick sched t procs
    tick :: (if tick.2.isEmpty then [] else watch_multiple_loop sched procs fuel (t + 1))

/-- watch_multiple_processes, from the first sampling tick, with the
duration budget abstracted into a maximal number of ticks. -/
def watch_multiple_processes (sched : Nat → Nat → PStatus) (procs : List Nat)
    (maxTicks : Nat) : List (List Nat × List Nat) :=
  watch_multiple_loop sched procs maxTicks 0

/-! ## services/systemd_backend.py -/

/-- One parsed row of systemctl list-units output (the dict built at
systemd_backend.py lines 44-50). -/
structure SysdUnit where
  name : String
  load_state : String
  active_state : String
  sub_state : String
  description : String
deriving DecidableEq

namespace SystemdBackend

/-- systemd_backend.py lines 31-52: strip stdout, split into lines, skip the
first line, keep nonblank lines not starting with LOAD, whitespace-split
each and keep those with at least four columns. -/
def parse_units (stdout : String) : List SysdUnit :=
  let lines := pyLines (pyStrip stdout)
  (lines.drop 1).filterMap (fun line =>
    if pyStrip line ≠ "" ∧ ¬ beginsWith "LOAD" line then
      let parts := pyWords line
      if 4 ≤ parts.length then
        some { name := parts.getD 0 "", load_state := parts.getD 1 "",
               active_state := parts.getD 2 "", sub_state := parts.getD 3 "",
               description := pyJoin " " (parts.drop 4) }
      else none
    else none)

/-- systemd_backend.py lines 21-60. The outer try catches every exception,
so the embedding is total: the function returns the service list and the
trace of emitted reports. -/
def list_services (res : CmdOutcome) : List SysdUnit × List LogRec :=
  match res with
  | .ok rc stdout _ =>
    if rc ≠ 0 then ([], [.perr "Failed to list systemd services"])
    else (parse_units stdout, [])
  | .timeout => ([], [.perr "Timeout listing systemd services"])
  | .fileNotFound m =>
    ([], [.perr ("Error listing systemd services: " ++ m),
          .lerror ("systemd list_services error: " ++ m)])
  | .exc m =>
    ([], [.perr ("Error listing systemd services: " ++ m),
          .lerror ("systemd list_services error: " ++ m)])

/-- systemd_backend.py lines 83-106: sudo systemctl start, boolean is
exit code equality with zero, with the action record logged after the
console report; on timeout only the console error is emitted. -/
def start_service (name : String) (res : CmdOutcome) : Bool × List LogRec :=
  match res with
  | .ok rc _ err =>
    let success := rc == 0
    (success,
      (if success then [.psuccess ("Started service " ++ name)]
       else [.perr ("Failed to start service " ++ name ++ ": " ++ err)])
      ++ [.linfo ("systemd start_service: " ++ name ++ " success=" ++ pyBool success)])
  | .timeout => (false, [.perr ("Timeout starting service " ++ name)])
  | .fileNotFound m =>
    (false, [.perr ("Error starting service: " ++ m),
             .lerror ("systemd start_service error: " ++ m)])
  | .exc m =>
    (false, [.perr ("Error starting service: " ++ m),
             .lerror ("systemd start_service error: " ++ m)])

/-- systemd_backend.py lines 108-131: sudo systemctl stop, same template
as start_service. -/
def stop_service (name : String) (res : CmdOutcome) : Bool × List LogRec :=
  match res with
  | .ok rc _ err =>
    let success := rc == 0
    (success,
      (if success then [.psuccess ("Stopped service " ++ name)]
       else [.perr ("Failed to stop service " ++ name ++ ": " ++ err)])
      ++ [.linfo ("systemd stop_service: " ++ name ++ " success=" ++ pyBool success)])
  | .timeout => (false, [.perr ("Timeout stopping service " ++ name)])
  | .fileNotFound m =>
    (false, [.perr ("Error stopping service: " ++ m),
             .lerror ("systemd stop_service error: " ++ m)])
  | .exc m =>
    (false, [.perr ("Error stopping service: " ++ m),
             .lerror ("systemd stop_service error: " ++ m)])

/-- systemd_backend.py lines 133-156: sudo systemctl restart — systemd has
a native restart verb, so this is a single subprocess call. -/
def restart_service (name : String) (res : CmdOutcome) : Bool × List LogRec :=
  match res with
  | .ok rc _ err =>
    let success := rc == 0
    (success,
      (if success then [.psuccess ("Restarted service " ++ name)]
       else [.perr ("Failed to restart service " ++ name ++ ": " ++ err)])
      ++ [.linfo ("systemd restart_service: " ++ name ++ " success=" ++ pyBool success)])
  | .timeout => (false, [.perr ("Timeout restarting service " ++ name)])
  | .fileNotFound m =>
    (false, [.perr ("Error restarting service: " ++ m),
             .lerror ("systemd restart_service error: " ++ m)])
  | .exc m =>
    (false, [.perr ("Error restarting service: " ++ m),
             .lerror ("systemd restart_service error: " ++ m)])

/-- systemd_backend.py lines 158-181: sudo systemctl enable. -/
def enable_service (name : String) (res : CmdOutcome) : Bool × List LogRec :=
  match res with
  | .ok rc _ err =>
    let success := rc == 0
    (success,
      (if success then [.psuccess ("Enabled service " ++ name)]
       else [.perr ("Failed to enable service " ++ name ++ ": " ++ err)])
      ++ [.linfo ("systemd enable_service: " ++ name ++ " success=" ++ pyBool success)])
  | .timeout => (false, [.perr ("Timeout enabling service " ++ name)])
  | .fileNotFound m =>
    (false, [.perr ("Error enabling service: " ++ m),
             .lerror ("systemd enable_service error: " ++ m)])
  | .exc m =>
    (false, [.perr ("Error enabling service: " ++ m),
             .lerror ("systemd enable_service error: " ++ m)])

/-- systemd_backend.py lines 183-206: sudo systemctl disable. -/
def disable_service (name : String) (res : CmdOutcome) : Bool × List LogRec :=
  match res with
  | .ok rc _ err =>
    let success := rc == 0
    (success,
      (if success then [.psuccess ("Disabled service " ++ name)]
       else [.perr ("Failed to disable service " ++ name ++ ": " ++ err)])
      ++ [.linfo ("systemd disable_service: " ++ name ++ " success=" ++ pyBool success)])
  | .timeout => (false, [.perr ("Timeout disabling service " ++ name)])
  | .fileNotFound m =>
    (false, [.perr ("Error disabling service: " ++ m),
             .lerror ("systemd disable_service error: " ++ m)])
  | .exc m =>
    (false, [.perr ("Error disabling service: " ++ m),
             .lerror ("systemd disable_service error: " ++ m)])

/-- systemd_backend.py lines 12-19: systemctl --version with the
TimeoutExpired and FileNotFoundError exceptions caught (returning false);
any other exception escapes. -/
def is_available (res : CmdOutcome) : Except PyErr Bool :=
  match res with
  | .ok rc _ _ => .ok (rc == 0)
  | .timeout => .ok false
  | .fileNotFound _ => .ok false
  | .exc m => .error (.uncaught m)

end SystemdBackend

/-! ## services/launchd_backend.py -/

/-- One parsed row of launchctl list output (the dict built at
launchd_backend.py lines 45-50). -/
structure LchdService where
  label : String
  pid : Option Int
  status : String
  last_exit_code : Option String
deriving DecidableEq

/-- The host environment seen by the availability probes: whether os.uname
exists (POSIX only), its sysname when it does, and os.name. -/
structure OsEnv where
  hasUname : Bool
  sysname : String
  osName : String
deriving DecidableEq

namespace LaunchdBackend

/-- launchd_backend.py lines 27-52: strip stdout, split into lines, skip the
first, keep nonblank lines, split each on tabs and keep those with at least
three fields; the pid field becomes an integer when it is not a dash and
parses, else none. -/
def parse_services (stdout : String) : List LchdService :=
  let lines := pyLines (pyStrip stdout)
  (lines.drop 1).filterMap (fun line =>
    if pyStrip line ≠ "" then
      let parts := pySplit '\t' line
      if 3 ≤ parts.length then
        let pid := pyStrip (parts.getD 0 "")
        let status := pyStrip (parts.getD 1 "")
        let label := pyStrip (parts.getD 2 "")
        some { label := label,
               pid := if pid ≠ "-" then pyToInt pid else none,
               status := status,
               last_exit_code := if pid ≠ "-" then some pid else none }
      else none
    else none)

/-- launchd_backend.py lines 16-60, total for the same reason as the
systemd variant. -/
def list_services (res : CmdOutcome) : List LchdService × List LogRec :=
  match res with
  | .ok rc stdout _ =>
    if rc ≠ 0 then ([], [.perr "Failed to list launchd services"])
    else (parse_services stdout, [])
  | .timeout => ([], [.perr "Timeout listing launchd services"])
  | .fileNotFound m =>
    ([], [.perr ("Error listing launchd services: " ++ m),
          .lerror ("launchd list_services error: " ++ m)])
  | .exc m =>
    ([], [.perr ("Error listing launchd services: " ++ m),
          .lerror ("launchd list_services error: " ++ m)])

/-- launchd_backend.py lines 83-106: sudo launchctl start. -/
def start_service (name : String) (res : CmdOutcome) : Bool × List LogRec :=
  match res with
  | .ok rc _ err =>
    let success := rc == 0
    (success,
      (if success then [.psuccess ("Started service " ++ name)]
       else [.perr ("Failed to start service " ++ name ++ ": " ++ err)])
      ++ [.linfo ("launchd start_service: " ++ name ++ " success=" ++ pyBool success)])
  | .timeout => (false, [.perr ("Timeout starting service " ++ name)])
  | .fileNotFound m =>
    (false, [.perr ("Error starting service: " ++ m),
             .lerror ("launchd start_service error: " ++ m)])
  | .exc m =>
    (false, [.perr ("Error starting service: " ++ m),
             .lerror ("launchd start_service error: " ++ m)])

/-- launchd_backend.py lines 108-131: sudo launchctl stop. -/
def stop_service (name : String) (res : CmdOutcome) : Bool × List LogRec :=
  match res with
  | .ok rc _ err =>
    let success := rc == 0
    (success,
      (if success then [.psuccess ("Stopped service " ++ name)]
       else [.perr ("Failed to stop service " ++ name ++ ": " ++ err)])
      ++ [.linfo ("launchd stop_service: " ++ name ++ " success=" ++ pyBool success)])
  | .timeout => (false, [.perr ("Timeout stopping service " ++ name)])
  | .fileNotFound m =>
    (false, [.perr ("Error stopping service: " ++ m),
             .lerror ("launchd stop_service error: " ++ m)])
  | .exc m =>
    (false, [.perr ("Error stopping service: " ++ m),
             .lerror ("launchd stop_service error: " ++ m)])

/-- launchd_backend.py lines 133-160: stop then start inside one try block.
An exception from either call lands in the shared handlers; when both calls
complete, success is computed from the start exit code alone — the stop
result is never consulted. -/
def restart_service (name : String) (stopRes startRes : CmdOutcome) :
    Bool × List LogRec :=
  match stopRes with
  | .timeout => (false, [.perr ("Timeout restarting service " ++ name)])
  | .fileNotFound m =>
    (false, [.perr ("Error restarting service: " ++ m),
             .lerror ("launchd restart_service error: " ++ m)])
  | .exc m =>
    (false, [.perr ("Error restarting service: " ++ m),
             .lerror ("launchd restart_service error: " ++ m)])
  | .ok _ _ _ =>
    match startRes with
    | .timeout => (false, [.perr ("Timeout restarting service " ++ name)])
    | .fileNotFound m =>
      (false, [.perr ("Error restarting service: " ++ m),
               .lerror ("launchd restart_service error: " ++ m)])
    | .exc m =>
      (false, [.perr ("Error restarting service: " ++ m),
               .lerror ("launchd restart_service error: " ++ m)])
    | .ok rc2 _ err2 =>
      let success := rc2 == 0
      (success,
        (if success then [.psuccess ("Restarted service " ++ name)]
         else [.perr ("Failed to restart service " ++ name ++ ": " ++ err2)])
        ++ [.linfo ("launchd restart_service: " ++ name ++ " success=" ++ pyBool success)])

/-- launchd_backend.py lines 166-171 and 209-214: the four candidate plist
locations, in search order. -/
def plist_paths (label : String) : List String :=
  ["/Library/LaunchDaemons/" ++ label ++ ".plist",
   "/System/Library/LaunchDaemons/" ++ label ++ ".plist",
   "/Library/LaunchAgents/" ++ label ++ ".plist",
   "/System/Library/LaunchAgents/" ++ label ++ ".plist"]

/-- The first candidate path that os.path.exists accepts. -/
def find_plist (ex : String → Bool) : List String → Option String
  | [] => none
  | p :: ps => if ex p then some p else find_plist ex ps

/-- launchd_backend.py lines 162-203: locate the plist; when none of the
four candidates exists, report the failure and return false without running
launchctl; otherwise run sudo launchctl load on the found file. ex models
os.path.exists, run maps the found plist path to the outcome of the load
invocation, and the third component records every launchctl command
actually spawned (as its argv). -/
def enable_service (ex : String → Bool) (run : String → CmdOutcome)
    (label : String) : Bool × List LogRec × List (List String) :=
  match find_plist ex (plist_paths label) with
  | none => (false, [.perr ("Could not find plist file for " ++ label)], [])
  | some plist =>
    let argv := ["sudo", "launchctl", "load", plist]
    match run plist with
    | .ok rc _ err =>
      let success := rc == 0
      (success,
        (if success then [.psuccess ("Enabled service " ++ label)]
         else [.perr ("Failed to enable service " ++ label ++ ": " ++ err)])
        ++ [.linfo ("launchd enable_service: " ++ label ++ " success=" ++ pyBool success)],
        [argv])
    | .timeout => (false, [.perr ("Timeout enabling service " ++ label)], [argv])
    | .fileNotFound m =>
      (false, [.perr ("Error enabling service: " ++ m),
               .lerror ("launchd enable_service error: " ++ m)], [argv])
    | .exc m =>
      (false, [.perr ("Error enabling service: " ++ m),
               .lerror ("launchd enable_service error: " ++ m)], [argv])

/-- launchd_backend.py lines 205-246: the unload twin of enable_service,
with the same candidate search and the same not-found short-circuit. -/
def disable_service (ex : String → Bool) (run : String → CmdOutcome)
    (label : String) : Bool × List LogRec × List (List String) :=
  match find_plist ex (plist_paths label) with
  | none => (false, [.perr ("Could not find plist file for " ++ label)], [])
  | some plist =>
    let argv := ["sudo", "launchctl", "unload", plist]
    match run plist with
    | .ok rc _ err =>
      let success := rc == 0
      (success,
        (if success then [.psuccess ("Disabled service " ++ label)]
         else [.perr ("Failed to disable service " ++ label ++ ": " ++ err)])
        ++ [.linfo ("launchd disable_service: " ++ label ++ " success=" ++ pyBool success)],
        [argv])
    | .timeout => (false, [.perr ("Timeout disabling service " ++ label)], [argv])
    | .fileNotFound m =>
      (false, [.perr ("Error disabling service: " ++ m),
               .lerror ("launchd disable_service error: " ++ m)], [argv])
    | .exc m =>
      (false, [.perr ("Error disabling service: " ++ m),
               .lerror ("launchd disable_service error: " ++ m)], [argv])

/-- launchd_backend.py lines 12-14: os.uname().sysname equality with
Darwin, with no exception handling at all: on a host without os.uname
(Windows) the attribute access raises AttributeError. -/
def is_available (env : OsEnv) : Except PyErr Bool :=
  if env.hasUname then .ok (env.sysname == "Darwin") else .error .attributeError

end LaunchdBackend

/-! ## services/windows_backend.py -/

/-- One block of sc.exe query output as the parser accumulates it
(windows_backend.py lines 45-61): a dict whose keys appear only when the
matching tagged line was seen. -/
structure WinSvc where
  name : Option String
  display_name : Option String
  type_ : Option String
  state : Option String
deriving DecidableEq

/-- Truthiness of the accumulating dict: empty means no key set yet. -/
def WinSvc.isEmptyDict (s : WinSvc) : Bool :=
  s.name.isNone && s.display_name.isNone && s.type_.isNone && s.state.isNone

namespace WindowsBackend

/-- windows_backend.py lines 47-61: walk the lines, strip each, open a new
block at every SERVICE_NAME tag (appending the previous nonempty block),
and record the other three tags into the current block; the final nonempty
block is appended after the loop. -/
def parse_loop : List String → WinSvc → List WinSvc
  | [], cur => if cur.isEmptyDict then [] else [cur]
  | l :: ls, cur =>
    let line := pyStrip l
    if beginsWith "SERVICE_NAME:" line then
      let newCur : WinSvc :=
        { name := some (pyStrip (pyAfterColon line)),
          display_name := none, type_ := none, state := none }
      if cur.isEmptyDict then parse_loop ls newCur else cur :: parse_loop ls newCur
    else if beginsWith "DISPLAY_NAME:" line then
      parse_loop ls { cur with display_name := some (pyStrip (pyAfterColon line)) }
    else if beginsWith "TYPE:" line then
      parse_loop ls { cur with type_ := some (pyStrip (pyAfterColon line)) }
    else if beginsWith "STATE:" line then
      parse_loop ls { cur with state := some (pyStrip (pyAfterColon line)) }
    else parse_loop ls cur

/-- windows_backend.py line 44: stdout is split on newlines without a
whole-string strip, then fed to the block parser. -/
def parse_services (stdout : String) : List WinSvc :=
  parse_loop (pyLines stdout)
    { name := none, display_name := none, type_ := none, state := none }

/-- windows_backend.py lines 32-71, total like the other backends. -/
def list_services (res : CmdOutcome) : List WinSvc × List LogRec :=
  match res with
  | .ok rc stdout _ =>
    if rc ≠ 0 then ([], [.perr "Failed to list Windows services"])
    else (parse_services stdout, [])
  | .timeout => ([], [.perr "Timeout listing Windows services"])
  | .fileNotFound m =>
    ([], [.perr ("Error listing Windows services: " ++ m),
          .lerror ("windows list_services error: " ++ m)])
  | .exc m =>
    ([], [.perr ("Error listing Windows services: " ++ m),
          .lerror ("windows list_services error: " ++ m)])

/-- windows_backend.py lines 94-117: sc.exe start. -/
def start_service (name : String) (res : CmdOutcome) : Bool × List LogRec :=
  match res with
  | .ok rc _ err =>
    let success := rc == 0
    (success,
      (if success then [.psuccess ("Started service " ++ name)]
       else [.perr ("Failed to start service " ++ name ++ ": " ++ err)])
      ++ [.linfo ("windows start_service: " ++ name ++ " success=" ++ pyBool success)])
  | .timeout => (false, [.perr ("Timeout starting service " ++ name)])
  | .fileNotFound m =>
    (false, [.perr ("Error starting service: " ++ m),
             .lerror ("windows start_service error: " ++ m)])
  | .exc m =>
    (false, [.perr ("Error starting service: " ++ m),
             .lerror ("windows start_service error: " ++ m)])

/-- windows_backend.py lines 119-142: sc.exe stop. -/
def stop_service (name : String) (res : CmdOutcome) : Bool × List LogRec :=
  match res with
  | .ok rc _ err =>
    let success := rc == 0
    (success,
      (if success then [.psuccess ("Stopped service " ++ name)]
       else [.perr ("Failed to stop service " ++ name ++ ": " ++ err)])
      ++ [.linfo ("windows stop_service: " ++ name ++ " success=" ++ pyBool success)])
  | .timeout => (false, [.perr ("Timeout stopping service " ++ name)])
  | .fileNotFound m =>
    (false, [.perr ("Error stopping service: " ++ m),
             .lerror ("windows stop_service error: " ++ m)])
  | .exc m =>
    (false, [.perr ("Error stopping service: " ++ m),
             .lerror ("windows stop_service error: " ++ m)])

/-- windows_backend.py lines 176-199: sc.exe config start= auto, a single
subprocess call. -/
def enable_service (name : String) (res : CmdOutcome) : Bool × List LogRec :=
  match res with
  | .ok rc _ err =>
    let success := rc == 0
    (success,
      (if success then [.psuccess ("Enabled service " ++ name)]
       else [.perr ("Failed to enable service " ++ name ++ ": " ++ err)])
      ++ [.linfo ("windows enable_service: " ++ name ++ " success=" ++ pyBool success)])
  | .timeout => (false, [.perr ("Timeout enabling service " ++ name)])
  | .fileNotFound m =>
    (false, [.perr ("Error enabling service: " ++ m),
             .lerror ("windows enable_service error: " ++ m)])
  | .exc m =>
    (false, [.perr ("Error enabling service: " ++ m),
             .lerror ("windows enable_service error: " ++ m)])

/-- windows_backend.py lines 201-224: sc.exe config start= disabled. -/
def disable_service (name : String) (res : CmdOutcome) : Bool × List LogRec :=
  match res with
  | .ok rc _ err =>
    let success := rc == 0
    (success,
      (if success then [.psuccess ("Disabled service " ++ name)]
       else [.perr ("Failed to disable service " ++ name ++ ": " ++ err)])
      ++ [.linfo ("windows disable_service: " ++ name ++ " success=" ++ pyBool success)])
  | .timeout => (false, [.perr ("Timeout disabling service " ++ name)])
  | .fileNotFound m =>
    (false, [.perr ("Error disabling service: " ++ m),
             .lerror ("windows disable_service error: " ++ m)])
  | .exc m =>
    (false, [.perr ("Error disabling service: " ++ m),
             .lerror ("windows disable_service error: " ++ m)])

/-- windows_backend.py lines 144-174: sc.exe stop then sc.exe start. A stop
completing with a nonzero exit code returns false before the start step
runs; when both complete, success is the start exit code. -/
def restart_service (name : String) (stopRes startRes : CmdOutcome) :
    Bool × List LogRec :=
  match stopRes with
  | .timeout => (false, [.perr ("Timeout restarting service " ++ name)])
  | .fileNotFound m =>
    (false, [.perr ("Error restarting service: " ++ m),
             .lerror ("windows restart_service error: " ++ m)])
  | .exc m =>
    (false, [.perr ("Error restarting service: " ++ m),
             .lerror ("windows restart_service error: " ++ m)])
  | .ok rc1 _ _ =>
    if rc1 ≠ 0 then
      (false, [.perr ("Failed to stop service " ++ name ++ " for restart")])
    else
      match startRes with
      | .timeout => (false, [.perr ("Timeout restarting service " ++ name)])
      | .fileNotFound m =>
        (false, [.perr ("Error restarting service: " ++ m),
                 .lerror ("windows restart_service error: " ++ m)])
      | .exc m =>
        (false, [.perr ("Error restarting service: " ++ m),
                 .lerror ("windows restart_service error: " ++ m)])
      | .ok rc2 _ err2 =>
        let success := rc2 == 0
        (success,
          (if success then [.psuccess ("Restarted service " ++ name)]
           else [.perr ("Failed to restart service " ++ name ++ ": " ++ err2)])
          ++ [.linfo ("windows restart_service: " ++ name ++ " success=" ++ pyBool success)])

/-- windows_backend.py lines 28-30: a pure comparison of os.name with nt;
it cannot raise on any host. -/
def is_available (env : OsEnv) : Except PyErr Bool := .ok (env.osName == "nt")

end WindowsBackend

/-! ## core/core.py: normalization, backend selection, manage_service -/

/-- One displayed row of the core list_services table (core.py 278-290),
fields Name, Display Name, State, Type. -/
structure SvcRow where
  name : String
  display_name : String
  state : String
  type_ : String
deriving DecidableEq

/-- The keys of a backend-supplied service dict that core list_services
consults (core.py 277-290). A field is some v exactly when the key is
present; pid distinguishes a present key whose value is None from an
absent key. The systemd-only keys load_state and sub_state and the
launchd-only keys status and last_exit_code are never read there and are
not part of this projection. -/
structure SvcDict where
  name : Option String
  display_name : Option String
  description : Option String
  state : Option String
  active_state : Option String
  type_ : Option String
  label : Option String
  pid : Option (Option Int)
deriving DecidableEq

/-- Injection of a parsed systemd row into the consulted-key projection:
the dict built at systemd_backend.py 44-50 has name, active_state and
description keys but no state, display_name or type key. -/
def SysdUnit.toDict (u : SysdUnit) : SvcDict :=
  { name := some u.name, display_name := none, description := some u.description,
    state := none, active_state := some u.active_state, type_ := none,
    label := none, pid := none }

/-- Injection of a parsed launchd row: only label and pid among the
consulted keys. -/
def LchdService.toDict (s : LchdService) : SvcDict :=
  { name := none, display_name := none, description := none, state := none,
    active_state := none, type_ := none, label := some s.label, pid := some s.pid }

/-- Injection of a parsed windows block: its optional keys pass through. -/
def WinSvc.toDict (s : WinSvc) : SvcDict :=
  { name := s.name, display_name := s.display_name, description := none,
    state := s.state, active_state := none, type_ := s.type_,
    label := none, pid := none }

/-- Python truthiness of service.get(pid): false when the key is absent,
when its value is None, and when it is the integer zero. -/
def pyTruthyPid : Option (Option Int) → Bool
  | some (some v) => v != 0
  | _ => false

/-- core.py lines 275-290: the per-dict normalization step of core
list_services. A dict with a name key becomes a row taking State from its
state key, falling back to active_state and then to the literal Unknown; a
dict with a label key instead becomes a LaunchD row whose State is Running
exactly when its pid is truthy; any other dict produces no row. -/
def normalize_service (s : SvcDict) : Option SvcRow :=
  if s.name.isSome then
    some { name := s.name.getD "",
           display_name := s.display_name.getD (s.description.getD ""),
           state := s.state.getD (s.active_state.getD "Unknown"),
           type_ := s.type_.getD "Service" }
  else if s.label.isSome then
    some { name := s.label.getD "",
           display_name := s.label.getD "",
           state := if pyTruthyPid s.pid then "Running" else "Stopped",
           type_ := "LaunchD" }
  else none

/-- The three backend variants of the selector. -/
inductive BackendKind where
  | systemd
  | windows
  | launchd
deriving DecidableEq

/-- Environment of one get_service_backend call: the platform.system()
string and the availability probe outcome each backend would report if
instantiated. -/
structure SelEnv where
  system : String
  systemd_avail : Except PyErr Bool
  windows_avail : Except PyErr Bool
  launchd_avail : Except PyErr Bool

/-- The probe outcome of a given backend in an environment. -/
def avail_of (env : SelEnv) : BackendKind → Except PyErr Bool
  | .systemd => env.systemd_avail
  | .windows => env.windows_avail
  | .launchd => env.launchd_avail

/-- core.py lines 231-257: lower the platform string, instantiate the single
matching backend and return it only when its probe reports true; a false
probe falls through to return None, an exception from the probe is caught
by the outer handler which also returns None, and an unmatched platform
never instantiates anything. The second component records the backends
instantiated during the call, in order. Console output of the handler is
not modelled here. -/
def get_service_backend (env : SelEnv) : Option BackendKind × List BackendKind :=
  let system := pyLower env.system
  if system = "linux" then
    match env.systemd_avail with
    | .ok true => (some .systemd, [.systemd])
    | _ => (none, [.systemd])
  else if system = "windows" then
    match env.windows_avail with
    | .ok true => (some .windows, [.windows])
    | _ => (none, [.windows])
  else if system = "darwin" then
    match env.launchd_avail with
    | .ok true => (some .launchd, [.launchd])
    | _ => (none, [.launchd])
  else (none, [])

/-- The backend the current platform string selects, mirroring the branch
structure of get_service_backend. -/
def matched_kind (env : SelEnv) : Option BackendKind :=
  let system := pyLower env.system
  if system = "linux" then some .systemd
  else if system = "windows" then some .windows
  else if system = "darwin" then some .launchd
  else none

/-- core.py lines 303-334: pick a backend (False when none), require admin
privileges (False when absent), reject any action outside the five-entry
dispatch table (False), and otherwise invoke exactly one backend operation,
whose boolean outcome — abstracted by opResult, since it depends on the
subprocess run — is returned. The second component records the backend
service operations actually invoked as (action, service name) pairs. -/
def manage_service (env : SelEnv) (is_admin : Bool)
    (opResult : String → String → Bool) (action name : String) :
    Bool × List (String × String) :=
  match (get_service_backend env).1 with
  | none => (false, [])
  | some _ =>
    if ¬ is_admin then (false, [])
    else if action ∈ (["start", "stop", "restart", "enable", "disable"] : List String) then
      (opResult action name, [(action, name)])
    else (false, [])

/-- A trace record that carries the structured (backend, action, name,
success) payload: exactly the logger.info action records written at the
comment Log action in every backend operation. -/
def is_action_record : LogRec → Bool
  | .linfo _ => true
  | _ => false

/-! ## Claim C1 -/

/-- C1: the claim says every delta reported for a tick is clamped to 0 when
the current cumulative counter is below the previous one, and is never
negative. The code computes every delta by plain subtraction with no
clamp (monitor.py lines 59-66 and 141-148), so a counter reset is
reported as a negative delta: with previous reading 1000 and current
reading 500 the reported io read delta is -500, and likewise for the
write, network and disk deltas. -/
theorem C1_delta_negative_on_reset :
    io_read_delta (some ⟨1000, 0⟩) ⟨500, 0⟩ = -500 ∧
    io_write_delta (some ⟨0, 800⟩) ⟨0, 300⟩ = -500 ∧
    net_sent_delta (some ⟨2000, 0⟩) ⟨700, 0⟩ = -1300 ∧
    net_recv_delta (some ⟨0, 2000⟩) ⟨0, 700⟩ = -1300 ∧
    disk_read_delta (some ⟨4000, 0⟩) ⟨100, 0⟩ = -3900 ∧
    disk_write_delta (some ⟨0, 5000⟩) ⟨0, 100⟩ = -4900 ∧
    io_read_delta (some ⟨1000, 0⟩) ⟨500, 0⟩ < 0 := by
  decide

/-! ## Claim C2 -/

/-- C2 counterexample: a parse mismatch is one of the CLI failures the
claim enumerates, yet a zero-exit systemctl output whose rows match no
column pattern makes list_services return the empty sequence while
emitting zero log entries, not exactly one. -/
theorem C2_counterexample :
    SystemdBackend.list_services
        (.ok 0 "UNIT LOAD ACTIVE SUB DESCRIPTION\ngarbage-output-with-one-column" "")
      = ([], []) ∧
    (SystemdBackend.list_services
        (.ok 0 "UNIT LOAD ACTIVE SUB DESCRIPTION\ngarbage-output-with-one-column" "")).2.length
      = 0 := by
  decide

/-- C2 amended: for all three backends, list_services on a nonzero exit
code or a timeout returns the empty sequence and emits exactly one log
entry, and (being total functions, mirroring the outer exception handler)
never raises; but on a parse mismatch the unrecognized rows are silently
skipped, so a zero-exit call emits no log entry at all, whatever the
output. -/
theorem C2_list_services_failures :
    (∀ (rc : Int) (out err : String), rc ≠ 0 →
      SystemdBackend.list_services (.ok rc out err)
          = ([], [.perr "Failed to list systemd services"]) ∧
      LaunchdBackend.list_services (.ok rc out err)
          = ([], [.perr "Failed to list launchd services"]) ∧
      WindowsBackend.list_services (.ok rc out err)
          = ([], [.perr "Failed to list Windows services"])) ∧
    SystemdBackend.list_services .timeout = ([], [.perr "Timeout listing systemd services"]) ∧
    LaunchdBackend.list_services .timeout = ([], [.perr "Timeout listing launchd services"]) ∧
    WindowsBackend.list_services .timeout = ([], [.perr "Timeout listing Windows services"]) ∧
    (∀ out err : String,
      (SystemdBackend.list_services (.ok 0 out err)).2 = [] ∧
      (LaunchdBackend.list_services (.ok 0 out err)).2 = [] ∧
      (WindowsBackend.list_services (.ok 0 out err)).2 = []) := by
  refine ⟨?_, rfl, rfl, rfl, ?_⟩
  · intro rc out err h
    refine ⟨?_, ?_, ?_⟩ <;>
      simp [SystemdBackend.list_services, LaunchdBackend.list_services,
            WindowsBackend.list_services, h]
  · intro out err
    refine ⟨?_, ?_, ?_⟩ <;>
      simp [SystemdBackend.list_services, LaunchdBackend.list_services,
            WindowsBackend.list_services]

/-- C2 witness: the amended theorem applied at exit code 1. -/
theorem C2_list_services_failures_witness :
    SystemdBackend.list_services (.ok 1 "" "")
      = ([], [.perr "Failed to list systemd services"]) :=
  (C2_list_services_failures.1 1 "" "" (by decide)).1

/-! ## Claim C3 -/

/-- C3 counterexample: the launchd backend restart is stop-then-start, yet
with a stop step exiting 1 (failure) and a start step exiting 0 it returns
true — the claim requires false whenever the stop step fails. -/
theorem C3_counterexample :
    (LaunchdBackend.restart_service "com.test.daemon"
        (.ok 1 "" "stop failed") (.ok 0 "" "")).1 = true := by
  decide

/-- C3 amended: the windows backend conforms — its restart returns true
only when both steps exit 0 and returns false as soon as the stop step
exits nonzero — but the launchd restart boolean reflects only the start
exit code, ignoring a completed stop step result entirely; a stop timeout
still yields false in both backends. -/
theorem C3_restart_two_step :
    (∀ (name out1 err1 out2 err2 : String) (rc1 rc2 : Int),
      (WindowsBackend.restart_service name (.ok rc1 out1 err1) (.ok rc2 out2 err2)).1 = true →
        rc1 = 0 ∧ rc2 = 0) ∧
    (∀ (name out1 err1 : String) (rc1 : Int) (startRes : CmdOutcome), rc1 ≠ 0 →
      (WindowsBackend.restart_service name (.ok rc1 out1 err1) startRes).1 = false) ∧
    (∀ (name out1 err1 out2 err2 : String) (rc1 rc2 : Int),
      (LaunchdBackend.restart_service name (.ok rc1 out1 err1) (.ok rc2 out2 err2)).1
        = (rc2 == 0)) ∧
    (∀ (name : String) (startRes : CmdOutcome),
      (LaunchdBackend.restart_service name .timeout startRes).1 = false ∧
      (WindowsBackend.restart_service name .timeout startRes).1 = false) := by
  refine ⟨?_, ?_, ?_, ?_⟩
  · intro name out1 err1 out2 err2 rc1 rc2 htrue
    by_cases h1 : rc1 = 0
    · subst h1
      simp [WindowsBackend.restart_service] at htrue
      exact ⟨rfl, htrue⟩
    · exfalso
      simp [WindowsBackend.restart_service, h1] at htrue
  · intro name out1 err1 rc1 startRes h1
    simp [WindowsBackend.restart_service, h1]
  · intro name out1 err1 out2 err2 rc1 rc2
    rfl
  · intro name startRes
    exact ⟨rfl, rfl⟩

/-- C3 witness: the amended theorem applied at a failing stop step. -/
theorem C3_restart_two_step_witness :
    (WindowsBackend.restart_service "Spooler" (.ok 1 "" "") (.ok 0 "" "")).1 = false :=
  C3_restart_two_step.2.1 "Spooler" "" "" 1 (.ok 0 "" "") (by decide)

/-! ## Claim C4 -/

/-- The plist search returns none when no candidate path exists. -/
theorem find_plist_none (ex : String → Bool) :
    ∀ l : List String, (∀ p ∈ l, ex p = false) →
      LaunchdBackend.find_plist ex l = none := by
  intro l h
  induction l with
  | nil => rfl
  | cons p ps ih =>
    simp only [LaunchdBackend.find_plist]
    rw [h p (by simp)]
    simp only [Bool.false_eq_true, if_false]
    exact ih fun q hq => h q (by simp [hq])

/-- C4: when the plist of a service label exists in none of the four
candidate directories, LaunchdBackend enable_service and disable_service
both return false, emit exactly the could-not-find error record (the
NotFound report of the error taxonomy), and spawn no launchctl load or
unload command at all. -/
theorem C4_plist_not_found (ex : String → Bool) (run : String → CmdOutcome)
    (label : String)
    (h : ∀ p ∈ LaunchdBackend.plist_paths label, ex p = false) :
    LaunchdBackend.enable_service ex run label
      = (false, [.perr ("Could not find plist file for " ++ label)], []) ∧
    LaunchdBackend.disable_service ex run label
      = (false, [.perr ("Could not find plist file for " ++ label)], []) := by
  have hf := find_plist_none ex _ h
  constructor <;>
    simp [LaunchdBackend.enable_service, LaunchdBackend.disable_service, hf]

/-- C4 witness: the theorem applied to a label with no plist anywhere. -/
theorem C4_plist_not_found_witness :
    LaunchdBackend.enable_service (fun _ => false) (fun _ => CmdOutcome.ok 0 "" "")
        "com.example.test"
      = (false, [.perr ("Could not find plist file for " ++ "com.example.test")], []) :=
  (C4_plist_not_found (fun _ => false) (fun _ => CmdOutcome.ok 0 "" "")
    "com.example.test" (fun _ _ => rfl)).1

/-! ## Claim C5 -/

/-- Characterization of the selector by the matched kind and its probe. -/
theorem get_service_backend_cases (env : SelEnv) :
    get_service_backend env =
      match matched_kind env with
      | none => (none, [])
      | some k =>
        match avail_of env k with
        | .ok true => (some k, [k])
        | _ => (none, [k]) := by
  unfold get_service_backend matched_kind avail_of
  by_cases h1 : pyLower env.system = "linux" <;>
    by_cases h2 : pyLower env.system = "windows" <;>
      by_cases h3 : pyLower env.system = "darwin" <;>
        simp [h1, h2, h3]

/-- C5: get_service_backend returns none whenever the platform matches no
backend or the matching backend reports is_available false, and every run
instantiates at most one backend — in particular no second backend is ever
instantiated after a false probe. -/
theorem C5_selector (env : SelEnv) :
    ((matched_kind env = none ∨
        ∃ k, matched_kind env = some k ∧ avail_of env k = .ok false) →
      (get_service_backend env).1 = none) ∧
    (get_service_backend env).2.length ≤ 1 := by
  rw [get_service_backend_cases]
  constructor
  · intro h
    rcases h with h | ⟨k, hk, hav⟩
    · rw [h]
    · rw [hk]
      simp [hav]
  · cases hm : matched_kind env with
    | none => simp
    | some k =>
      rcases ha : avail_of env k with e | b
      · simp [ha]
      · cases b <;> simp [ha]

/-- C5 witness: on a Linux platform string whose systemd probe reports
false, the selector returns none after instantiating one backend. -/
theorem C5_selector_witness :
    (get_service_backend ⟨"Linux", .ok false, .ok true, .ok true⟩).1 = none ∧
    (get_service_backend ⟨"Linux", .ok false, .ok true, .ok true⟩).2.length ≤ 1 :=
  ⟨(C5_selector _).1 (Or.inr ⟨.systemd, by decide, rfl⟩), (C5_selector _).2⟩

/-! ## Claim C6 -/

/-- C6 counterexample: a systemd row with active_state active flows through
the core normalization unchanged — the displayed State field is the raw
string active, which is not in the closed set Running, Stopped, Unknown. -/
theorem C6_counterexample :
    ((SystemdBackend.list_services
        (.ok 0 "UNIT LOAD ACTIVE SUB DESCRIPTION\ncron.service loaded active running Scheduler" "")).1.map
      (fun u => normalize_service u.toDict))
      = [some { name := "cron.service", display_name := "Scheduler",
                state := "active", type_ := "Service" }] ∧
    "active" ∉ (["Running", "Stopped", "Unknown"] : List String) := by
  decide

/-- C6 amended: only launchd-derived records get a state from the closed
set (Running when the pid is truthy, else Stopped); systemd-derived records
pass their raw active_state string through unchanged, and windows-derived
records pass their raw STATE line value through, the literal Unknown
appearing only when a name-keyed dict carries neither a state nor an
active_state key. -/
theorem C6_state_normalization :
    (∀ s : LchdService, ∃ r, normalize_service s.toDict = some r ∧
        (r.state = "Running" ∨ r.state = "Stopped")) ∧
    (∀ u : SysdUnit, ∃ r, normalize_service u.toDict = some r ∧
        r.state = u.active_state) ∧
    (∀ (w : WinSvc) (nm st : String), w.name = some nm → w.state = some st →
        ∃ r, normalize_service w.toDict = some r ∧ r.state = st) := by
  refine ⟨?_, ?_, ?_⟩
  · intro s
    refine ⟨_, rfl, ?_⟩
    cases h : pyTruthyPid (some s.pid) <;>
      simp [normalize_service, LchdService.toDict, h]
  · intro u
    exact ⟨_, rfl, rfl⟩
  · intro w nm st h1 h2
    refine ⟨{ name := nm, display_name := w.display_name.getD "",
              state := st, type_ := w.type_.getD "Service" }, ?_, rfl⟩
    simp [normalize_service, WinSvc.toDict, h1, h2]

/-- C6 witness: the windows pass-through conjunct applied to a parsed
block whose raw STATE value is the sc.exe string 4  RUNNING. -/
theorem C6_state_normalization_witness :
    ∃ r, normalize_service (WinSvc.toDict
        ⟨some "Spooler", some "Print Spooler", some "WIN32", some "4  RUNNING"⟩)
      = some r ∧ r.state = "4  RUNNING" :=
  C6_state_normalization.2.2
    ⟨some "Spooler", some "Print Spooler", some "WIN32", some "4  RUNNING"⟩
    "Spooler" "4  RUNNING" rfl rfl

/-! ## Claim C7 -/

/-- Every executed tick of the multi-process loop probes the entire
original target list: the list is never filtered between iterations. -/
theorem watch_multiple_loop_probes (sched : Nat → Nat → PStatus) (procs : List Nat) :
    ∀ (fuel t : Nat) (pr : List Nat × List Nat),
      pr ∈ watch_multiple_loop sched procs fuel t → pr.1 = procs := by
  intro fuel
  induction fuel with
  | zero => intro t pr h; simp [watch_multiple_loop] at h
  | succ n ih =>
    intro t pr h
    simp only [watch_multiple_loop] at h
    rcases List.mem_cons.mp h with h | h
    · rw [h]; rfl
    · by_cases hc : (multi_tick sched t procs).2.isEmpty
      · simp [hc] at h
      · simp only [hc, if_false] at h
        exact ih (t + 1) pr h

/-- A tick whose active set is empty is the last executed tick: the
session terminates there. -/
theorem watch_multiple_loop_last (sched : Nat → Nat → PStatus) (procs : List Nat) :
    ∀ (fuel t i : Nat) (h : i < (watch_multiple_loop sched procs fuel t).length),
      ((watch_multiple_loop sched procs fuel t).get ⟨i, h⟩).2 = [] →
      (watch_multiple_loop sched procs fuel t).length = i + 1 := by
  intro fuel
  induction fuel with
  | zero => intro t i h; simp [watch_multiple_loop] at h
  | succ n ih =>
    intro t i h hget
    cases i with
    | zero =>
      have htick : (multi_tick sched t procs).2 = [] := by
        simpa [watch_multiple_loop] using hget
      simp [watch_multiple_loop, htick]
    | succ j =>
      by_cases hc : (multi_tick sched t procs).2.isEmpty
      · exfalso
        simp [watch_multiple_loop, hc] at h
      · have h2 : j < (watch_multiple_loop sched procs n (t + 1)).length := by
          simpa [watch_multiple_loop, hc] using h
        have hget2 : ((watch_multiple_loop sched procs n (t + 1)).get ⟨j, h2⟩).2 = [] := by
          simpa [watch_multiple_loop, hc] using hget
        have hlen := ih (t + 1) j h2 hget2
        simp [watch_multiple_loop, hc, hlen]

/-- C7 counterexample: with two resolved targets where target 0 dies from
tick 1 on, the trace of (probed, sampled) pairs shows target 0 observed
dead at tick 1 (absent from the sampled set) yet probed again at tick 2 —
so a dead target is not excluded from subsequent iterations and is read
again, contrary to the claim. -/
theorem C7_counterexample :
    watch_multiple_processes
        (fun t p => if p = 0 ∧ 1 ≤ t then PStatus.notRunning else PStatus.running 0 0 1)
        [0, 1] 3
      = [([0, 1], [0, 1]), ([0, 1], [1]), ([0, 1], [1])] := by
  decide

/-- C7 amended: each executed tick re-probes every originally resolved
target (a target observed dead is only excluded from that tick's sampled
set, not from later iterations), and the session does terminate as soon as
a tick finds every target dead: a tick with an empty active set is the
last one. -/
theorem C7_multi_process_loop :
    (∀ (sched : Nat → Nat → PStatus) (procs : List Nat) (maxTicks : Nat)
        (pr : List Nat × List Nat),
        pr ∈ watch_multiple_processes sched procs maxTicks → pr.1 = procs) ∧
    (∀ (sched : Nat → Nat → PStatus) (procs : List Nat) (maxTicks i : Nat)
        (h : i < (watch_multiple_processes sched procs maxTicks).length),
        ((watch_multiple_processes sched procs maxTicks).get ⟨i, h⟩).2 = [] →
        (watch_multiple_processes sched procs maxTicks).length = i + 1) :=
  ⟨fun sched procs maxTicks pr h => watch_multiple_loop_probes sched procs maxTicks 0 pr h,
   fun sched procs maxTicks i h hg => watch_multiple_loop_last sched procs maxTicks 0 i h hg⟩

/-- C7 witness: the amended theorem applied to the concrete schedules of
the counterexample and of a single target dying at tick 1, whose session
ends with the tick that found no live target. -/
theorem C7_multi_process_loop_witness :
    (([0, 1], [0, 1]) : List Nat × List Nat).1 = [0, 1] ∧
    (watch_multiple_processes
        (fun t _ => if 1 ≤ t then PStatus.notRunning else PStatus.running 0 0 1)
        [0] 5).length = 1 + 1 :=
  ⟨C7_multi_process_loop.1
      (fun t p => if p = 0 ∧ 1 ≤ t then PStatus.notRunning else PStatus.running 0 0 1)
      [0, 1] 3 ([0, 1], [0, 1]) (by decide),
   C7_multi_process_loop.2
      (fun t _ => if 1 ≤ t then PStatus.notRunning else PStatus.running 0 0 1)
      [0] 5 1 (by decide) (by decide)⟩

/-! ## Claim C8 -/

/-- C8 counterexample: a timed-out start produces only the console timeout
error; no record carrying the structured (name, action, success) payload —
the logger action record, the only record kind bearing the success
outcome — is emitted, and nothing reaches the file logging sink at all,
contrary to the claim that every invocation logs the success outcome. -/
theorem C8_counterexample :
    SystemdBackend.start_service "cron" .timeout
      = (false, [.perr "Timeout starting service cron"]) ∧
    (SystemdBackend.start_service "cron" .timeout).2.filter is_action_record = [] := by
  decide

/-- C8 amended, over every mutating action of every backend: the returned
boolean is true iff the exit code of the final completed control
subprocess is 0, and the (name, action, success) action record is emitted
exactly when that control subprocess ran to completion (success or plain
nonzero exit). No action record is produced when the subprocess times out
(only a console timeout error naming the action and service), when the
windows restart stop step completes with a nonzero exit (console error
only, returns false), or when launchd enable or disable finds no plist
(the NotFound console error only, returns false); launchd restart emits
its record whenever both of its steps complete, with success taken from
the start step alone. -/
theorem C8_action_logging :
    (∀ (name out err : String) (rc : Int),
      (SystemdBackend.start_service name (.ok rc out err)).1 = (rc == 0) ∧
      (SystemdBackend.start_service name (.ok rc out err)).2.filter is_action_record
        = [.linfo ("systemd start_service: " ++ name ++ " success=" ++ pyBool (rc == 0))] ∧
      (SystemdBackend.stop_service name (.ok rc out err)).1 = (rc == 0) ∧
      (SystemdBackend.stop_service name (.ok rc out err)).2.filter is_action_record
        = [.linfo ("systemd stop_service: " ++ name ++ " success=" ++ pyBool (rc == 0))] ∧
      (SystemdBackend.restart_service name (.ok rc out err)).1 = (rc == 0) ∧
      (SystemdBackend.restart_service name (.ok rc out err)).2.filter is_action_record
        = [.linfo ("systemd restart_service: " ++ name ++ " success=" ++ pyBool (rc == 0))] ∧
      (SystemdBackend.enable_service name (.ok rc out err)).1 = (rc == 0) ∧
      (SystemdBackend.enable_service name (.ok rc out err)).2.filter is_action_record
        = [.linfo ("systemd enable_service: " ++ name ++ " success=" ++ pyBool (rc == 0))] ∧
      (SystemdBackend.disable_service name (.ok rc out err)).1 = (rc == 0) ∧
      (SystemdBackend.disable_service name (.ok rc out err)).2.filter is_action_record
        = [.linfo ("systemd disable_service: " ++ name ++ " success=" ++ pyBool (rc == 0))] ∧
      (LaunchdBackend.start_service name (.ok rc out err)).1 = (rc == 0) ∧
      (LaunchdBackend.start_service name (.ok rc out err)).2.filter is_action_record
        = [.linfo ("launchd start_service: " ++ name ++ " success=" ++ pyBool (rc == 0))] ∧
      (LaunchdBackend.stop_service name (.ok rc out err)).1 = (rc == 0) ∧
      (LaunchdBackend.stop_service name (.ok rc out err)).2.filter is_action_record
        = [.linfo ("launchd stop_service: " ++ name ++ " success=" ++ pyBool (rc == 0))] ∧
      (WindowsBackend.start_service name (.ok rc out err)).1 = (rc == 0) ∧
      (WindowsBackend.start_service name (.ok rc out err)).2.filter is_action_record
        = [.linfo ("windows start_service: " ++ name ++ " success=" ++ pyBool (rc == 0))] ∧
      (WindowsBackend.stop_service name (.ok rc out err)).1 = (rc == 0) ∧
      (WindowsBackend.stop_service name (.ok rc out err)).2.filter is_action_record
        = [.linfo ("windows stop_service: " ++ name ++ " success=" ++ pyBool (rc == 0))] ∧
      (WindowsBackend.enable_service name (.ok rc out err)).1 = (rc == 0) ∧
      (WindowsBackend.enable_service name (.ok rc out err)).2.filter is_action_record
        = [.linfo ("windows enable_service: " ++ name ++ " success=" ++ pyBool (rc == 0))] ∧
      (WindowsBackend.disable_service name (.ok rc out err)).1 = (rc == 0) ∧
      (WindowsBackend.disable_service name (.ok rc out err)).2.filter is_action_record
        = [.linfo ("windows disable_service: " ++ name ++ " success=" ++ pyBool (rc == 0))]) ∧
    (∀ name : String,
      SystemdBackend.start_service name .timeout
        = (false, [.perr ("Timeout starting service " ++ name)]) ∧
      SystemdBackend.stop_service name .timeout
        = (false, [.perr ("Timeout stopping service " ++ name)]) ∧
      SystemdBackend.restart_service name .timeout
        = (false, [.perr ("Timeout restarting service " ++ name)]) ∧
      SystemdBackend.enable_service name .timeout
        = (false, [.perr ("Timeout enabling service " ++ name)]) ∧
      SystemdBackend.disable_service name .timeout
        = (false, [.perr ("Timeout disabling service " ++ name)]) ∧
      LaunchdBackend.start_service name .timeout
        = (false, [.perr ("Timeout starting service " ++ name)]) ∧
      LaunchdBackend.stop_service name .timeout
        = (false, [.perr ("Timeout stopping service " ++ name)]) ∧
      WindowsBackend.start_service name .timeout
        = (false, [.perr ("Timeout starting service " ++ name)]) ∧
      WindowsBackend.stop_service name .timeout
        = (false, [.perr ("Timeout stopping service " ++ name)]) ∧
      WindowsBackend.enable_service name .timeout
        = (false, [.perr ("Timeout enabling service " ++ name)]) ∧
      WindowsBackend.disable_service name .timeout
        = (false, [.perr ("Timeout disabling service " ++ name)])) ∧
    (∀ (name out1 err1 out2 err2 : String) (rc2 : Int),
      (WindowsBackend.restart_service name (.ok 0 out1 err1) (.ok rc2 out2 err2)).1
        = (rc2 == 0) ∧
      (WindowsBackend.restart_service name (.ok 0 out1 err1) (.ok rc2 out2 err2)).2.filter
          is_action_record
        = [.linfo ("windows restart_service: " ++ name ++ " success=" ++ pyBool (rc2 == 0))]) ∧
    (∀ (name out1 err1 : String) (rc1 : Int) (startRes : CmdOutcome), rc1 ≠ 0 →
      WindowsBackend.restart_service name (.ok rc1 out1 err1) startRes
        = (false, [.perr ("Failed to stop service " ++ name ++ " for restart")])) ∧
    (∀ (name out1 err1 out2 err2 : String) (rc1 rc2 : Int),
      (LaunchdBackend.restart_service name (.ok rc1 out1 err1) (.ok rc2 out2 err2)).1
        = (rc2 == 0) ∧
      (LaunchdBackend.restart_service name (.ok rc1 out1 err1) (.ok rc2 out2 err2)).2.filter
          is_action_record
        = [.linfo ("launchd restart_service: " ++ name ++ " success=" ++ pyBool (rc2 == 0))]) ∧
    (∀ (name : String) (startRes : CmdOutcome),
      LaunchdBackend.restart_service name .timeout startRes
        = (false, [.perr ("Timeout restarting service " ++ name)]) ∧
      WindowsBackend.restart_service name .timeout startRes
        = (false, [.perr ("Timeout restarting service " ++ name)])) ∧
    (∀ (ex : String → Bool) (run : String → CmdOutcome) (label plist out err : String)
        (rc : Int),
      LaunchdBackend.find_plist ex (LaunchdBackend.plist_paths label) = some plist →
      run plist = .ok rc out err →
      (LaunchdBackend.enable_service ex run label).1 = (rc == 0) ∧
      (LaunchdBackend.enable_service ex run label).2.1.filter is_action_record
        = [.linfo ("launchd enable_service: " ++ label ++ " success=" ++ pyBool (rc == 0))] ∧
      (LaunchdBackend.disable_service ex run label).1 = (rc == 0) ∧
      (LaunchdBackend.disable_service ex run label).2.1.filter is_action_record
        = [.linfo ("launchd disable_service: " ++ label ++ " success=" ++ pyBool (rc == 0))]) ∧
    (∀ (ex : String → Bool) (run : String → CmdOutcome) (label : String),
      LaunchdBackend.find_plist ex (LaunchdBackend.plist_paths label) = none →
      (LaunchdBackend.enable_service ex run label).2.1.filter is_action_record = [] ∧
      (LaunchdBackend.disable_service ex run label).2.1.filter is_action_record = []) ∧
    (∀ (ex : String → Bool) (run : String → CmdOutcome) (label plist : String),
      LaunchdBackend.find_plist ex (LaunchdBackend.plist_paths label) = some plist →
      run plist = .timeout →
      LaunchdBackend.enable_service ex run label
        = (false, [.perr ("Timeout enabling service " ++ label)],
           [["sudo", "launchctl", "load", plist]]) ∧
      LaunchdBackend.disable_service ex run label
        = (false, [.perr ("Timeout disabling service " ++ label)],
           [["sudo", "launchctl", "unload", plist]])) := by
  refine ⟨?_, ?_, ?_, ?_, ?_, ?_, ?_, ?_, ?_⟩
  · intro name out err rc
    cases h : (rc == 0) <;>
      simp [SystemdBackend.start_service, SystemdBackend.stop_service,
            SystemdBackend.restart_service, SystemdBackend.enable_service,
            SystemdBackend.disable_service, LaunchdBackend.start_service,
            LaunchdBackend.stop_service, WindowsBackend.start_service,
            WindowsBackend.stop_service, WindowsBackend.enable_service,
            WindowsBackend.disable_service, is_action_record, h]
  · intro name
    exact ⟨rfl, rfl, rfl, rfl, rfl, rfl, rfl, rfl, rfl, rfl, rfl⟩
  · intro name out1 err1 out2 err2 rc2
    cases h : (rc2 == 0) <;>
      simp [WindowsBackend.restart_service, is_action_record, h]
  · intro name out1 err1 rc1 startRes h1
    simp [WindowsBackend.restart_service, h1]
  · intro name out1 err1 out2 err2 rc1 rc2
    cases h : (rc2 == 0) <;>
      simp [LaunchdBackend.restart_service, is_action_record, h]
  · intro name startRes
    exact ⟨rfl, rfl⟩
  · intro ex run label plist out err rc hfind hrun
    cases h : (rc == 0) <;>
      simp [LaunchdBackend.enable_service, LaunchdBackend.disable_service,
            hfind, hrun, is_action_record, h]
  · intro ex run label hfind
    simp [LaunchdBackend.enable_service, LaunchdBackend.disable_service,
          hfind, is_action_record]
  · intro ex run label plist hfind hrun
    simp [LaunchdBackend.enable_service, LaunchdBackend.disable_service,
          hfind, hrun]

/-- C8 witness: the amended theorem applied at the windows restart whose
stop step completed with exit code 1 — False is returned and the trace
holds no action record — and at a launchd enable whose plist search found
a file and whose load completed with exit 0. -/
theorem C8_action_logging_witness :
    WindowsBackend.restart_service "Spooler" (.ok 1 "" "") (.ok 0 "" "")
      = (false, [.perr ("Failed to stop service " ++ "Spooler" ++ " for restart")]) ∧
    (LaunchdBackend.enable_service (fun _ => true) (fun _ => CmdOutcome.ok 0 "" "")
        "com.example.test").1 = ((0 : Int) == 0) :=
  ⟨C8_action_logging.2.2.2.1 "Spooler" "" "" 1 (.ok 0 "" "") (by decide),
   (C8_action_logging.2.2.2.2.2.2.1 (fun _ => true) (fun _ => CmdOutcome.ok 0 "" "")
      "com.example.test" ("/Library/LaunchDaemons/" ++ "com.example.test" ++ ".plist")
      "" "" 0 rfl rfl).1⟩

/-! ## Claim C9 -/

/-- C9: the claim says is_available never raises on an unsupported OS and
returns false there. The systemd and windows probes conform, but the
launchd probe reads os.uname(), an attribute that does not exist on
Windows: invoked there it raises AttributeError instead of returning
false. -/
theorem C9_is_available_unsupported_os :
    LaunchdBackend.is_available ⟨false, "", "nt"⟩ = .error .attributeError ∧
    LaunchdBackend.is_available ⟨true, "Linux", "posix"⟩ = .ok false ∧
    SystemdBackend.is_available (.fileNotFound "no systemctl binary") = .ok false ∧
    SystemdBackend.is_available .timeout = .ok false ∧
    WindowsBackend.is_available ⟨true, "Linux", "posix"⟩ = .ok false :=
  ⟨rfl, rfl, rfl, rfl, rfl⟩

/-! ## Claim C10 -/

/-- C10: manage_service returns False and invokes no backend service
operation whenever the action string is outside the five-entry dispatch
table, or the privilege check denies admin, or no backend is available. -/
theorem C10_manage_service_guards (env : SelEnv) (is_admin : Bool)
    (opResult : String → String → Bool) (action name : String)
    (h : action ∉ (["start", "stop", "restart", "enable", "disable"] : List String) ∨
         is_admin = false ∨ (get_service_backend env).1 = none) :
    manage_service env is_admin opResult action name = (false, []) := by
  unfold manage_service
  rcases h with h | h | h
  · cases hb : (get_service_backend env).1 with
    | none => rfl
    | some k => cases is_admin <;> simp [h]
  · rw [h]
    cases hb : (get_service_backend env).1 with
    | none => rfl
    | some k => simp
  · rw [h]

/-- C10 witness: an available backend and admin privileges, but an unknown
action string. -/
theorem C10_manage_service_guards_witness :
    manage_service ⟨"Linux", .ok true, .ok true, .ok true⟩ true (fun _ _ => true)
      "frobnicate" "sshd" = (false, []) :=
  C10_manage_service_guards _ _ _ _ _ (Or.inl (by decide))

end ProcSight
